import Mathlib

/-!
Verification development for the Qwen Image Service backend
(`backend/app.py`, `backend/worker.py`, `backend/comfy_client.py`,
`backend/utils.py`, `backend/model.py`).

The Python code is shallowly embedded: pure helpers become Lean functions,
Redis writes become an explicit write log, and the outcomes of external
calls (Ollama, ComfyUI HTTP, file staging) become explicit parameters, so
that control flow of the embedded functions mirrors the source line by line.
-/

/-! ### Python string primitives

The source uses `str.lower`, `str.upper`, `str.strip` and the substring
test `kw in p`.  They are modelled over explicit character lists so that
every definition reduces in the kernel. -/

/-- Python `pat in s` (substring containment), scanning every suffix. -/
def strContainsAux (pat : List Char) : List Char → Bool
  | [] => pat.isEmpty
  | c :: rest => pat.isPrefixOf (c :: rest) || strContainsAux pat rest

/-- Python `pat in s` on strings. -/
def strContains (s pat : String) : Bool :=
  strContainsAux pat.data s.data

/-- Python `s.lower()`. -/
def pyLower (s : String) : String :=
  ⟨s.data.map Char.toLower⟩

/-- Python `s.upper()`. -/
def pyUpper (s : String) : String :=
  ⟨s.data.map Char.toUpper⟩

/-- Python `s.strip()`: drop whitespace from both ends. -/
def pyStrip (s : String) : String :=
  ⟨((s.data.dropWhile Char.isWhitespace).reverse.dropWhile Char.isWhitespace).reverse⟩

/-- Python truthiness of an optional string (`if not x:`): `None` and the
empty string are falsy. -/
def truthy : Option String → Bool
  | none => false
  | some s => !(s == "")

/-! ### `backend/utils.py` — `OllamaModeClassifier` -/

/-- The keyword list of `OllamaModeClassifier._fallback_rule`. -/
def edit_keywords : List String :=
  ["edit", "remove", "erase", "delete", "change", "fix", "replace",
   "add ", "add something", "make her", "make him", "remove text",
   "xóa", "xoá", "sửa", "chỉnh"]

/-- `OllamaModeClassifier._fallback_rule`: lower-case the prompt and return
"EDIT" as soon as one keyword occurs in it, else "NEW". -/
def fallback_rule (prompt : String) : String :=
  if edit_keywords.any (fun kw => strContains (pyLower prompt) kw)
  then "EDIT" else "NEW"

/-- Outcome of the external Ollama call and of the parsing of its response
text inside `classify_mode`.  `callError` covers every exception raised
while calling (non-200 after `raise_for_status`, timeout, transport error);
`noJsonFragment` is a 200 response whose text holds no regex match for a
brace-delimited fragment; `parseError` is a fragment `json.loads` (or the
subsequent dict access) fails on; `parsedMode s` is a parsed dict whose
`mode` entry reads as the string `s` (the empty string when absent). -/
inductive OllamaOutcome
  | callError (msg : String)
  | noJsonFragment (raw : String)
  | parseError (msg : String)
  | parsedMode (modeRaw : String)
deriving DecidableEq, Repr

/-- True on the outcomes the source treats as a failure of the external
classification (every branch that falls back to the keyword rule). -/
def outcomeFailed : OllamaOutcome → Bool
  | .callError _ => true
  | .noJsonFragment _ => true
  | .parseError _ => true
  | .parsedMode s =>
      !(pyUpper (pyStrip s) == "NEW" || pyUpper (pyStrip s) == "EDIT")

/-- `OllamaModeClassifier.classify_mode`.  The external call and response
parsing are given by `o`; the control flow mirrors the source: empty or
whitespace-only prompt returns "NEW" before any call, every call or parse
failure returns the fallback rule, and a parsed `mode` value is stripped,
upper-cased and accepted only when it is exactly "NEW" or "EDIT". -/
def classify_mode (prompt : String) (o : OllamaOutcome) : String :=
  if pyStrip prompt == "" then "NEW"
  else
    match o with
    | .callError _ => fallback_rule prompt
    | .noJsonFragment _ => fallback_rule prompt
    | .parseError _ => fallback_rule prompt
    | .parsedMode s =>
        if pyUpper (pyStrip s) == "NEW" || pyUpper (pyStrip s) == "EDIT"
        then pyUpper (pyStrip s) else fallback_rule prompt

example : fallback_rule "remove the hat" = "EDIT" := by decide
example : fallback_rule "a cat on the moon" = "NEW" := by decide
example : classify_mode "  " (.parsedMode "edit") = "NEW" := by decide
example : classify_mode "hello" (.parsedMode " new ") = "NEW" := by decide
example : classify_mode "hello" (.parsedMode "weird") = "NEW" := by decide

/-! ### Data model — job records, queue entries and the Redis store

Job state lives at key `job:<job_id>` as a JSON object with fields
`status`, `image_url`, `error_message`; the per-user pointer lives at key
`last_image:<user_id>`; the dispatch queue is the list at key
`image_jobs`.  A Redis `set`/`lpush` is recorded as a `WriteOp`. -/

/-- The JSON object stored at `job:<job_id>`. -/
structure JobRecord where
  status : String
  image_url : Option String
  error_message : Option String
deriving DecidableEq, Repr

/-- The job descriptor `job_data` pushed onto the `image_jobs` queue. -/
structure QueueEntry where
  job_id : String
  user_id : String
  prompt : String
  mode : String
deriving DecidableEq, Repr

/-- One Redis write performed by the intake endpoint or by a worker. -/
inductive WriteOp
  | setJob (jobId : String) (rec : JobRecord)
  | setLastImage (userId : String) (url : String)
  | pushQueue (entry : QueueEntry)
deriving DecidableEq, Repr

/-- The Redis key space the backend uses. -/
structure RedisState where
  job : String → Option JobRecord
  lastImage : String → Option String
  queue : List QueueEntry

/-- Apply one write to the store (`lpush` prepends). -/
def applyOp (st : RedisState) : WriteOp → RedisState
  | .setJob j r => { st with job := fun k => if k = j then some r else st.job k }
  | .setLastImage u v =>
      { st with lastImage := fun k => if k = u then some v else st.lastImage k }
  | .pushQueue e => { st with queue := e :: st.queue }

/-- Apply a write log in order. -/
def applyOps (st : RedisState) (ops : List WriteOp) : RedisState :=
  ops.foldl applyOp st

/-! ### `backend/model.py` and `backend/app.py` — intake -/

/-- `GenerateRequest`: `mode` is optional; pydantic's
`Literal["NEW", "EDIT"]` constrains a supplied value. -/
structure GenerateRequest where
  user_id : String
  prompt : String
  mode : Option String
deriving DecidableEq, Repr

/-- Pydantic validation of the optional `mode` field of `GenerateRequest`:
a request with any other explicit value is rejected before the endpoint
body runs. -/
def validMode : Option String → Bool
  | none => true
  | some m => m == "NEW" || m == "EDIT"

/-- The response body of `POST /generate`. -/
structure GenerateResponse where
  job_id : String
  status : String
deriving DecidableEq, Repr

/-- The `generate` endpoint of `backend/app.py`.  `jobId` stands for the
fresh `gen_job_id()` value and `o` for the outcome of the classifier's
external call.  An empty or whitespace-only prompt raises HTTP 400 before
any Redis access; otherwise the mode is the caller's verbatim value when
supplied, else "NEW" when the user's last-image pointer is falsy, else the
classifier's result; then the waiting record is stored and the descriptor
queued.  (`classify_mode` never returns `None`, so the source's
`if mode is None` fallback branch is unreachable and has no counterpart.) -/
def generate (jobId : String) (o : OllamaOutcome) (req : GenerateRequest)
    (st : RedisState) : Except Nat GenerateResponse × List WriteOp :=
  if pyStrip req.prompt == "" then (Except.error 400, [])
  else
    let mode :=
      match req.mode with
      | some m => m
      | none =>
          if truthy (st.lastImage req.user_id) then classify_mode req.prompt o
          else "NEW"
    (Except.ok ⟨jobId, "waiting"⟩,
     [WriteOp.setJob jobId ⟨"waiting", none, none⟩,
      WriteOp.pushQueue ⟨jobId, req.user_id, req.prompt, mode⟩])

/-! ### `backend/comfy_client.py` — engine adapter -/

/-- One image descriptor inside a history node output; a field is `none`
when the JSON key is absent. -/
structure ImageRef where
  filename : Option String
  subfolder : Option String
  imgType : Option String
deriving DecidableEq, Repr

/-- One node output of a history entry; `images` is `none` when the key is
absent. -/
structure NodeOutput where
  images : Option (List ImageRef)
deriving DecidableEq, Repr

/-- A history entry `history[prompt_id]` with its ordered `outputs` map. -/
structure HistoryItem where
  outputs : List (String × NodeOutput)
deriving DecidableEq, Repr

/-- Loop body of `extract_first_image_from_history`: skip nodes whose
`images` is absent or empty, read the FIRST image of the node, and return
it only when its `filename` is truthy — otherwise move to the next node. -/
def extractScan : List (String × NodeOutput) → Option (String × String × String)
  | [] => none
  | (_, nodeOut) :: rest =>
    match nodeOut.images with
    | none => extractScan rest
    | some [] => extractScan rest
    | some (img :: _) =>
      match img.filename with
      | none => extractScan rest
      | some f =>
          if f == "" then extractScan rest
          else some (f, img.subfolder.getD "", img.imgType.getD "output")

/-- `extract_first_image_from_history` of `backend/comfy_client.py`. -/
def extract_first_image_from_history (h : HistoryItem) :
    Option (String × String × String) :=
  extractScan h.outputs

/-- `settings.COMFYUI_URL` of `config/settings.py` (no trailing slash, so
the source's `rstrip` leaves it unchanged). -/
def comfyuiURL : String := "http://127.0.0.1:8188"

/-- `build_image_url` of `backend/comfy_client.py`. -/
def build_image_url (filename subfolder imgType : String) : String :=
  comfyuiURL ++ "/view?filename=" ++ filename ++ "&subfolder=" ++ subfolder
    ++ "&type=" ++ imgType

/-- One HTTP response of `GET /history/<prompt_id>`: a status code and the
decoded JSON body (the history map keyed by prompt id). -/
structure PollResponse where
  statusCode : Nat
  history : List (String × HistoryItem)
deriving Repr

/-- One iteration of the poll loop of `wait_for_result`: a 200 response
whose body holds the prompt id yields the entry, anything else polls
again. -/
def pollOnce (pid : String) (r : PollResponse) : Option HistoryItem :=
  if r.statusCode = 200 then r.history.lookup pid else none

/-- The poll loop of `wait_for_result`, run for at most `fuel` iterations
against the stream of responses the engine will give; `none` means the
loop is still running after `fuel` polls.  The source itself has no fuel:
its loop is `while True` and only a found entry leaves it. -/
def wait_for_result (pid : String) (responses : Nat → PollResponse) :
    Nat → Option HistoryItem
  | 0 => none
  | fuel + 1 =>
    match pollOnce pid (responses 0) with
    | some h => some h
    | none => wait_for_result pid (fun n => responses (n + 1)) fuel

/-- The poll loop returns after finitely many iterations on this response
stream. -/
def waitTerminatesOn (pid : String) (responses : Nat → PollResponse) : Prop :=
  ∃ fuel, (wait_for_result pid responses fuel).isSome = true

example :
    extract_first_image_from_history
      ⟨[("9", ⟨some []⟩), ("3", ⟨some [⟨some "x.png", none, some "output"⟩]⟩)]⟩
      = some ("x.png", "", "output") := by decide

/-! ### `backend/worker.py` — worker pool -/

/-- A workflow payload, kept abstract: `workflow_builder` only assembles a
JSON dict and no claim depends on its contents. -/
inductive Workflow
  | gen (prompt jobId : String)
  | edit (prompt imageFilename jobId : String)
deriving DecidableEq, Repr

/-- `build_gen_workflow` of `backend/workflow_builder.py` (payload kept
abstract). -/
def build_gen_workflow (prompt jobId : String) : Workflow :=
  .gen prompt jobId

/-- `build_edit_workflow` of `backend/workflow_builder.py` (payload kept
abstract). -/
def build_edit_workflow (prompt imageFilename jobId : String) : Workflow :=
  .edit prompt imageFilename jobId

/-- Outcomes of the worker's external calls while it processes one job:
`copyImage` is `copy_image_for_edit` (staged filename, or the message of
the exception it raised), `sendWorkflow` is `send_workflow_to_comfy`
(prompt id, or an exception message — including its own missing-prompt-id
`RuntimeError`), and `waitResult` is `wait_for_result` (a history entry,
or the message of a transport/decoding exception). -/
structure WorkerEnv where
  copyImage : Except String String
  sendWorkflow : Except String String
  waitResult : Except String HistoryItem
deriving Repr

/-- Workflow selection of `process_job`: mode "NEW" builds a generation
workflow; any other mode reads the user's last-image pointer, falls back
to the generation workflow when the pointer is falsy, and otherwise stages
the image and builds an edit workflow — a staging failure is re-raised as
`RuntimeError("Cannot prepare image for edit: ...")`. -/
def prepareWorkflow (env : WorkerEnv) (st : RedisState)
    (uid mode prompt jobId : String) : Except String Workflow :=
  if mode == "NEW" then Except.ok (build_gen_workflow prompt jobId)
  else
    match st.lastImage uid with
    | none => Except.ok (build_gen_workflow prompt jobId)
    | some lastImg =>
      if lastImg == "" then Except.ok (build_gen_workflow prompt jobId)
      else
        match env.copyImage with
        | .error e => Except.error ("Cannot prepare image for edit: " ++ e)
        | .ok filename => Except.ok (build_edit_workflow prompt filename jobId)

/-- The `try` block of `process_job`: build the workflow, submit it, await
the history entry, extract the first image and build its URL.  The result
is the image URL, or the message of the first exception raised. -/
def runAttempt (env : WorkerEnv) (st : RedisState)
    (jobId uid mode prompt : String) : Except String String :=
  match prepareWorkflow env st uid mode prompt jobId with
  | .error e => .error e
  | .ok _wf =>
    match env.sendWorkflow with
    | .error e => .error e
    | .ok _pid =>
      match env.waitResult with
      | .error e => .error e
      | .ok hist =>
        match extract_first_image_from_history hist with
        | none => .error "Không tìm thấy ảnh output trong history ComfyUI"
        | some (f, sub, ty) => .ok (build_image_url f sub ty)

/-- The write log of `process_job` once the four job fields are in hand:
first the processing record, then on success the user's last-image pointer
followed by the done record, and on any caught exception the error record
carrying the exception's message. -/
def processJobBody (env : WorkerEnv) (st : RedisState)
    (jobId uid mode prompt : String) : List WriteOp :=
  WriteOp.setJob jobId ⟨"processing", none, none⟩ ::
    match runAttempt env st jobId uid mode prompt with
    | .ok url =>
        [WriteOp.setLastImage uid url,
         WriteOp.setJob jobId ⟨"done", some url, none⟩]
    | .error e =>
        [WriteOp.setJob jobId ⟨"error", none, some e⟩]

/-- A decoded queue entry as `json.loads` hands it to `process_job`: each
field is `none` when the key is missing from the JSON object. -/
structure RawJob where
  job_id : Option String
  user_id : Option String
  mode : Option String
  prompt : Option String
deriving DecidableEq, Repr

/-- `process_job` of `backend/worker.py`.  The four subscript reads
`job_data["..."]` happen before the `try` block, so a missing key raises a
`KeyError` that escapes `process_job`; with all fields present the rest of
the body never raises and yields the write log of `processJobBody`. -/
def process_job (env : WorkerEnv) (st : RedisState) (raw : RawJob) :
    Except String (List WriteOp) :=
  match raw.job_id, raw.user_id, raw.mode, raw.prompt with
  | some jid, some uid, some mode, some prompt =>
      Except.ok (processJobBody env st jid uid mode prompt)
  | _, _, _, _ => Except.error "KeyError"

/-- One dequeued message: either a string `json.loads` rejects, or the
decoded job object. -/
inductive QueueMsg
  | invalidJSON (raw : String)
  | parsed (job : RawJob)
deriving Repr

/-- One iteration of `worker_loop`: an undecodable message is logged and
skipped; otherwise `process_job` runs and its writes are applied — an
exception escaping `process_job` escapes the loop. -/
def workerStep (env : WorkerEnv) (st : RedisState) (msg : QueueMsg) :
    Except String RedisState :=
  match msg with
  | .invalidJSON _ => Except.ok st
  | .parsed raw =>
    match process_job env st raw with
    | .ok ops => Except.ok (applyOps st ops)
    | .error e => Except.error e

/-- `worker_loop` of `backend/worker.py` run over a finite schedule of
dequeued messages (each with the external-call outcomes of its turn); the
first uncaught exception terminates the loop. -/
def worker_loop_run (steps : List (QueueMsg × WorkerEnv)) (st : RedisState) :
    Except String RedisState :=
  match steps with
  | [] => Except.ok st
  | (msg, env) :: rest =>
    match workerStep env st msg with
    | .ok st1 => worker_loop_run rest st1
    | .error e => Except.error e

/-- A dequeued message the loop provably survives: undecodable JSON, or a
job object carrying all four required fields. -/
def msgWellFormed : QueueMsg → Bool
  | .invalidJSON _ => true
  | .parsed raw =>
      raw.job_id.isSome && raw.user_id.isSome && raw.mode.isSome
        && raw.prompt.isSome

/-! ### Concrete fixtures used to instantiate the theorems -/

/-- An empty Redis store. -/
def st0 : RedisState := ⟨fun _ => none, fun _ => none, []⟩

/-- A store whose user `u` already owns a last image. -/
def st1 : RedisState :=
  ⟨fun _ => none, fun k => if k = "u" then some "http://img/1.png" else none, []⟩

/-- External-call outcomes where every engine call succeeds and the
history entry carries one named image. -/
def env0 : WorkerEnv :=
  ⟨Except.ok "staged.png", Except.ok "pid-1",
   Except.ok ⟨[("3", ⟨some [⟨some "a.png", some "sub", some "output"⟩]⟩)]⟩⟩

/-- External-call outcomes where awaiting the engine result raises. -/
def envFail : WorkerEnv :=
  ⟨Except.ok "staged.png", Except.ok "pid-1", Except.error "boom"⟩

/-! ### Helper lemmas shared by the claim theorems -/

/-- The keyword fallback only ever answers "NEW" or "EDIT". -/
theorem fallback_rule_range (p : String) :
    fallback_rule p = "NEW" ∨ fallback_rule p = "EDIT" := by
  unfold fallback_rule
  split
  · exact Or.inr rfl
  · exact Or.inl rfl

/-- Disjunct form: a boolean equality test that comes out true is an
equality. -/
theorem beq_true_or_elim {a b c : String}
    (h : (a == b || a == c) = true) : a = b ∨ a = c := by
  cases Bool.or_eq_true _ _ |>.mp h with
  | inl hb => exact Or.inl (by simpa using hb)
  | inr hc => exact Or.inr (by simpa using hc)

/-- The classifier only ever answers "NEW" or "EDIT". -/
theorem classify_mode_range (p : String) (o : OllamaOutcome) :
    classify_mode p o = "NEW" ∨ classify_mode p o = "EDIT" := by
  by_cases hp : (pyStrip p == "") = true
  · exact Or.inl (by simp [classify_mode, hp])
  · cases o with
    | callError m =>
        have h : classify_mode p (OllamaOutcome.callError m) = fallback_rule p := by
          simp [classify_mode, hp]
        rw [h]; exact fallback_rule_range p
    | noJsonFragment m =>
        have h : classify_mode p (OllamaOutcome.noJsonFragment m)
            = fallback_rule p := by
          simp [classify_mode, hp]
        rw [h]; exact fallback_rule_range p
    | parseError m =>
        have h : classify_mode p (OllamaOutcome.parseError m) = fallback_rule p := by
          simp [classify_mode, hp]
        rw [h]; exact fallback_rule_range p
    | parsedMode s =>
        by_cases hm : (pyUpper (pyStrip s) == "NEW"
            || pyUpper (pyStrip s) == "EDIT") = true
        · have h : classify_mode p (OllamaOutcome.parsedMode s)
              = pyUpper (pyStrip s) := by
            simp [classify_mode, hp, hm]
          rw [h]; exact beq_true_or_elim hm
        · have h : classify_mode p (OllamaOutcome.parsedMode s)
              = fallback_rule p := by
            simp [classify_mode, hp, hm]
          rw [h]; exact fallback_rule_range p

/-! ### Claim theorems -/

/-- C8: the fallback classification rule is the pure function that
lower-cases the prompt and answers "EDIT" exactly when one of the fixed
edit keywords occurs in it, and "NEW" otherwise; on the three sample
prompts it answers EDIT, NEW and NEW. -/
theorem c8_fallback_rule_pure :
    (∀ p, fallback_rule p =
      if edit_keywords.any (fun kw => strContains (pyLower p) kw)
      then "EDIT" else "NEW") ∧
    fallback_rule "remove the hat" = "EDIT" ∧
    fallback_rule "a cat on the moon" = "NEW" ∧
    fallback_rule "" = "NEW" :=
  ⟨fun _ => rfl, by decide, by decide, by decide⟩

/-- C7: the classifier is total with range exactly NEW/EDIT — a
whitespace-only prompt answers "NEW" independently of the external call,
and every failing external outcome (call exception, missing fragment,
parse error, out-of-range mode value) answers exactly the keyword
fallback. -/
theorem c7_classifier_total (p : String) (o : OllamaOutcome) :
    (classify_mode p o = "NEW" ∨ classify_mode p o = "EDIT") ∧
    (pyStrip p = "" → classify_mode p o = "NEW") ∧
    (outcomeFailed o = true → pyStrip p ≠ "" →
      classify_mode p o = fallback_rule p) := by
  refine ⟨classify_mode_range p o, ?_, ?_⟩
  · intro h
    simp [classify_mode, h]
  · intro hf hp
    have hp1 : ¬(pyStrip p == "") = true := by simpa using hp
    cases o with
    | callError m => simp [classify_mode, hp1]
    | noJsonFragment m => simp [classify_mode, hp1]
    | parseError m => simp [classify_mode, hp1]
    | parsedMode s =>
        have hm : ¬(pyUpper (pyStrip s) == "NEW"
            || pyUpper (pyStrip s) == "EDIT") = true := by
          simpa [outcomeFailed] using hf
        simp [classify_mode, hp1, hm]

/-- C7 witness: a transport failure on a non-empty prompt lands in the
fallback rule. -/
theorem c7_witness :
    classify_mode "remove it" (OllamaOutcome.callError "boom")
      = fallback_rule "remove it" :=
  (c7_classifier_total "remove it" (OllamaOutcome.callError "boom")).2.2
    (by decide) (by decide)

/-- The mutual-exclusion and status shape every stored job record must
satisfy. -/
def JobRecordInv (r : JobRecord) : Prop :=
  ¬(r.image_url.isSome = true ∧ r.error_message.isSome = true) ∧
  ((r.status = "waiting" ∨ r.status = "processing") →
      r.image_url = none ∧ r.error_message = none) ∧
  (r.status = "done" ↔ r.image_url.isSome = true) ∧
  (r.status = "error" ↔ r.error_message.isSome = true)

instance (r : JobRecord) : Decidable (JobRecordInv r) := by
  unfold JobRecordInv
  infer_instance

/-- C1: every job record the intake endpoint or a worker stores — the
waiting record, the processing record and the terminal done/error record —
keeps `image_url` and `error_message` mutually exclusive, both absent on
waiting/processing, and exactly the matching one present on a terminal
status. -/
theorem c1_record_invariant (jobId : String) (o : OllamaOutcome)
    (req : GenerateRequest) (st : RedisState) (env : WorkerEnv)
    (stw : RedisState) (jid uid mode prompt : String)
    (j : String) (r : JobRecord)
    (h : WriteOp.setJob j r ∈ (generate jobId o req st).2 ∨
         WriteOp.setJob j r ∈ processJobBody env stw jid uid mode prompt) :
    JobRecordInv r := by
  rcases h with h | h
  · by_cases hp : (pyStrip req.prompt == "") = true
    · simp [generate, hp] at h
    · simp [generate, hp] at h
      obtain ⟨-, rfl⟩ := h
      decide
  · cases hA : runAttempt env stw jid uid mode prompt with
    | ok url =>
        simp [processJobBody, hA] at h
        rcases h with ⟨-, rfl⟩ | ⟨-, rfl⟩
        · decide
        · simp [JobRecordInv]
    | error e =>
        simp [processJobBody, hA] at h
        rcases h with ⟨-, rfl⟩ | ⟨-, rfl⟩
        · decide
        · simp [JobRecordInv]

/-- C1 witness: the waiting record stored for a concrete request satisfies
the invariant. -/
theorem c1_witness : JobRecordInv ⟨"waiting", none, none⟩ :=
  c1_record_invariant "j1" (OllamaOutcome.callError "x") ⟨"u", "hi", none⟩ st0
    env0 st0 "j1" "u" "NEW" "hi" "j1" ⟨"waiting", none, none⟩
    (Or.inl (by decide))

/-- C4: the worker writes the user's last-image pointer exactly on success
and with exactly the image URL the attempt produced; a failed attempt
leaves every pointer untouched, and every write of `process_job` targets
either the job's own record or this user's pointer. -/
theorem c4_last_image_pointer (env : WorkerEnv) (st : RedisState)
    (jid uid mode prompt : String) :
    (∀ u v, WriteOp.setLastImage u v ∈ processJobBody env st jid uid mode prompt →
        u = uid ∧ runAttempt env st jid uid mode prompt = Except.ok v) ∧
    (∀ e, runAttempt env st jid uid mode prompt = Except.error e →
        ∀ u v, WriteOp.setLastImage u v ∉ processJobBody env st jid uid mode prompt) ∧
    (∀ url, runAttempt env st jid uid mode prompt = Except.ok url →
        WriteOp.setLastImage uid url ∈ processJobBody env st jid uid mode prompt) ∧
    (∀ op ∈ processJobBody env st jid uid mode prompt,
        (∃ r, op = WriteOp.setJob jid r) ∨ ∃ v, op = WriteOp.setLastImage uid v) := by
  refine ⟨?_, ?_, ?_, ?_⟩
  · intro u v hmem
    cases hA : runAttempt env st jid uid mode prompt with
    | ok url =>
        simp [processJobBody, hA] at hmem
        obtain ⟨rfl, rfl⟩ := hmem
        exact ⟨rfl, rfl⟩
    | error e => simp [processJobBody, hA] at hmem
  · intro e hA u v hmem
    simp [processJobBody, hA] at hmem
  · intro url hA
    simp [processJobBody, hA]
  · intro op hmem
    cases hA : runAttempt env st jid uid mode prompt with
    | ok url =>
        simp [processJobBody, hA] at hmem
        rcases hmem with rfl | rfl | rfl
        · exact Or.inl ⟨_, rfl⟩
        · exact Or.inr ⟨_, rfl⟩
        · exact Or.inl ⟨_, rfl⟩
    | error e =>
        simp [processJobBody, hA] at hmem
        rcases hmem with rfl | rfl
        · exact Or.inl ⟨_, rfl⟩
        · exact Or.inl ⟨_, rfl⟩

/-- C4 witness: a failed engine await writes no pointer for the concrete
job. -/
theorem c4_witness :
    ∀ u v, WriteOp.setLastImage u v ∉ processJobBody envFail st0 "j1" "u" "NEW" "hi" :=
  (c4_last_image_pointer envFail st0 "j1" "u" "NEW" "hi").2.1 "boom" rfl

/-- C5: with a non-blank prompt, an explicitly supplied mode is queued
verbatim and the classifier outcome is irrelevant; with no supplied mode
and a falsy last-image pointer the queued mode is "NEW", again with the
classifier outcome irrelevant; only with a truthy pointer is the queued
mode the classifier's answer. -/
theorem c5_mode_resolution (jobId : String) (o : OllamaOutcome)
    (req : GenerateRequest) (st : RedisState)
    (hp : pyStrip req.prompt ≠ "") :
    (∀ m, req.mode = some m →
        WriteOp.pushQueue ⟨jobId, req.user_id, req.prompt, m⟩
            ∈ (generate jobId o req st).2 ∧
        ∀ o2, generate jobId o2 req st = generate jobId o req st) ∧
    (req.mode = none → truthy (st.lastImage req.user_id) = false →
        WriteOp.pushQueue ⟨jobId, req.user_id, req.prompt, "NEW"⟩
            ∈ (generate jobId o req st).2 ∧
        ∀ o2, generate jobId o2 req st = generate jobId o req st) ∧
    (req.mode = none → truthy (st.lastImage req.user_id) = true →
        WriteOp.pushQueue ⟨jobId, req.user_id, req.prompt, classify_mode req.prompt o⟩
            ∈ (generate jobId o req st).2) := by
  have hp1 : ¬(pyStrip req.prompt == "") = true := by simpa using hp
  refine ⟨?_, ?_, ?_⟩
  · intro m hm
    constructor
    · simp [generate, hp1, hm]
    · intro o2
      simp [generate, hp1, hm]
  · intro hm hlast
    constructor
    · simp [generate, hp1, hm, hlast]
    · intro o2
      simp [generate, hp1, hm, hlast]
  · intro hm hlast
    simp [generate, hp1, hm, hlast]

/-- C5 witness: a prompt full of edit keywords from a user with no prior
image is still queued as mode "NEW". -/
theorem c5_witness :
    WriteOp.pushQueue ⟨"j1", "u", "remove the hat", "NEW"⟩
      ∈ (generate "j1" (OllamaOutcome.parsedMode "EDIT")
          ⟨"u", "remove the hat", none⟩ st0).2 :=
  ((c5_mode_resolution "j1" (OllamaOutcome.parsedMode "EDIT")
      ⟨"u", "remove the hat", none⟩ st0 (by decide)).2.1 rfl (by decide)).1

/-- C6: a blank prompt is rejected with HTTP 400 before any write — no
record, no queue entry, the store unchanged — while a non-blank prompt
yields the waiting response together with exactly one record write and one
queue append. -/
theorem c6_intake_validation (jobId : String) (o : OllamaOutcome)
    (req : GenerateRequest) (st : RedisState) :
    (pyStrip req.prompt = "" →
        generate jobId o req st = (Except.error 400, []) ∧
        applyOps st (generate jobId o req st).2 = st) ∧
    (pyStrip req.prompt ≠ "" →
        ∃ entry, generate jobId o req st =
          (Except.ok ⟨jobId, "waiting"⟩,
           [WriteOp.setJob jobId ⟨"waiting", none, none⟩,
            WriteOp.pushQueue entry])) := by
  constructor
  · intro hp
    have hp1 : (pyStrip req.prompt == "") = true := by simpa using hp
    constructor
    · simp [generate, hp1]
    · simp [generate, hp1, applyOps]
  · intro hp
    have hp1 : ¬(pyStrip req.prompt == "") = true := by simpa using hp
    refine ⟨⟨jobId, req.user_id, req.prompt,
      match req.mode with
      | some m => m
      | none =>
          if truthy (st.lastImage req.user_id) = true
          then classify_mode req.prompt o else "NEW"⟩, ?_⟩
    simp [generate, hp1]

/-- C6 witness: a whitespace-only prompt is rejected with 400 and leaves
the write log empty. -/
theorem c6_witness :
    generate "j1" (OllamaOutcome.callError "x") ⟨"u", "   ", none⟩ st0
      = (Except.error 400, []) :=
  ((c6_intake_validation "j1" (OllamaOutcome.callError "x")
      ⟨"u", "   ", none⟩ st0).1 (by decide)).1

/-- C10: under pydantic's validation of the optional `mode` field, every
queue entry the intake endpoint pushes carries mode "NEW" or "EDIT" — the
worker's dispatch never sees a third value. -/
theorem c10_queue_mode_closed (jobId : String) (o : OllamaOutcome)
    (req : GenerateRequest) (st : RedisState)
    (hv : validMode req.mode = true) :
    ∀ entry, WriteOp.pushQueue entry ∈ (generate jobId o req st).2 →
      entry.mode = "NEW" ∨ entry.mode = "EDIT" := by
  intro entry hmem
  by_cases hp : (pyStrip req.prompt == "") = true
  · simp [generate, hp] at hmem
  · simp [generate, hp] at hmem
    cases hm : req.mode with
    | some m =>
        subst hmem
        simp [hm]
        have : (m == "NEW" || m == "EDIT") = true := by
          simpa [validMode, hm] using hv
        exact beq_true_or_elim this
    | none =>
        subst hmem
        simp [hm]
        by_cases hlast : truthy (st.lastImage req.user_id) = true
        · simp [hlast]
          exact classify_mode_range req.prompt o
        · simp [Bool.not_eq_true] at hlast
          simp [hlast]

/-- C10 witness: a concrete explicit-EDIT request queues an entry whose
mode lies in the closed set. -/
theorem c10_witness :
    (⟨"j1", "u", "hi", "EDIT"⟩ : QueueEntry).mode = "NEW" ∨
    (⟨"j1", "u", "hi", "EDIT"⟩ : QueueEntry).mode = "EDIT" :=
  c10_queue_mode_closed "j1" (OllamaOutcome.callError "x")
    ⟨"u", "hi", some "EDIT"⟩ st0 (by decide) ⟨"j1", "u", "hi", "EDIT"⟩
    (by decide)

/-- A response stream on which the engine never reports the run: every
poll gets a 404 with an empty body. -/
def neverResponses : Nat → PollResponse := fun _ => ⟨404, []⟩

/-- C2 counterexample: on the stream that never carries the run id the
poll loop of `wait_for_result` runs forever — no iteration count makes it
return, because the source has no timeout branch at all. -/
theorem c2_counterexample : ¬ waitTerminatesOn "p1" neverResponses := by
  rintro ⟨fuel, h⟩
  induction fuel with
  | zero => simp [wait_for_result] at h
  | succ n ih =>
      rw [wait_for_result] at h
      simp only [pollOnce, neverResponses] at h
      norm_num at h
      exact ih (by simpa [neverResponses] using h)

/-- Unrolling lemma: a loop run that returned has seen a successful poll. -/
theorem wait_success_of_isSome (pid : String) :
    ∀ (fuel : Nat) (responses : Nat → PollResponse),
      (wait_for_result pid responses fuel).isSome = true →
      ∃ i, (pollOnce pid (responses i)).isSome = true := by
  intro fuel
  induction fuel with
  | zero => intro responses h; simp [wait_for_result] at h
  | succ n ih =>
      intro responses h
      rw [wait_for_result] at h
      cases hp : pollOnce pid (responses 0) with
      | some item => exact ⟨0, by simp [hp]⟩
      | none =>
          rw [hp] at h
          obtain ⟨i, hi⟩ := ih (fun n => responses (n + 1)) h
          exact ⟨i + 1, hi⟩

/-- Unrolling lemma: a successful poll at index `i` bounds the loop by
`i + 1` iterations. -/
theorem wait_isSome_of_success (pid : String) :
    ∀ (i : Nat) (responses : Nat → PollResponse),
      (pollOnce pid (responses i)).isSome = true →
      (wait_for_result pid responses (i + 1)).isSome = true := by
  intro i
  induction i with
  | zero =>
      intro responses h
      rw [wait_for_result]
      cases hp : pollOnce pid (responses 0) with
      | some item => simp
      | none => rw [hp] at h; simp at h
  | succ n ih =>
      intro responses h
      rw [wait_for_result]
      cases hp : pollOnce pid (responses 0) with
      | some item => simp
      | none => exact ih (fun k => responses (k + 1)) h

/-- C2 amended: `wait_for_result` polls the history endpoint at its fixed
interval and returns precisely when some poll answers 200 with the run id
in the body; it has no timeout of its own, so it terminates exactly on the
streams where the run id eventually appears. -/
theorem c2_wait_terminates_iff (pid : String) (responses : Nat → PollResponse) :
    waitTerminatesOn pid responses ↔
      ∃ i, (pollOnce pid (responses i)).isSome = true := by
  constructor
  · rintro ⟨fuel, h⟩
    exact wait_success_of_isSome pid fuel responses h
  · rintro ⟨i, hi⟩
    exact ⟨i + 1, wait_isSome_of_success pid i responses hi⟩

/-- C3 counterexample: a queue entry that is valid JSON but lacks the
required fields (here the empty object) raises a `KeyError` before the
worker's exception handler is installed, and the exception escapes
`worker_loop` — the loop run crashes instead of writing an error record. -/
theorem c3_counterexample :
    worker_loop_run [(QueueMsg.parsed ⟨none, none, none, none⟩, env0)] st0
      = Except.error "KeyError" := rfl

/-- C3 amended: for dequeued entries that are undecodable JSON (skipped)
or carry all four required fields, the worker loop never crashes; and once
the fields are in hand, any exception of the processing pipeline is caught
and turned into the terminal error record carrying its message. -/
theorem c3_worker_isolation (steps : List (QueueMsg × WorkerEnv))
    (st : RedisState)
    (h : ∀ p ∈ steps, msgWellFormed p.1 = true) :
    (∃ stFin, worker_loop_run steps st = Except.ok stFin) ∧
    (∀ env jid uid mode prompt e,
        runAttempt env st jid uid mode prompt = Except.error e →
        process_job env st ⟨some jid, some uid, some mode, some prompt⟩ =
          Except.ok [WriteOp.setJob jid ⟨"processing", none, none⟩,
                     WriteOp.setJob jid ⟨"error", none, some e⟩]) := by
  constructor
  · induction steps generalizing st with
    | nil => exact ⟨st, rfl⟩
    | cons p rest ih =>
        obtain ⟨msg, env⟩ := p
        have hmsg : msgWellFormed msg = true := h (msg, env) (by simp)
        have hrest : ∀ q ∈ rest, msgWellFormed q.1 = true := by
          intro q hq; exact h q (by simp [hq])
        cases msg with
        | invalidJSON raw =>
            simpa [worker_loop_run, workerStep] using ih _ hrest
        | parsed raw =>
            obtain ⟨jid, uid, mode, prompt⟩ := raw
            simp [msgWellFormed, Option.isSome_iff_exists] at hmsg
            obtain ⟨⟨⟨⟨j, rfl⟩, u, rfl⟩, m, rfl⟩, q, rfl⟩ := hmsg
            simpa [worker_loop_run, workerStep, process_job] using ih _ hrest
  · intro env jid uid mode prompt e hA
    simp [process_job, processJobBody, hA]

/-- C3 amended witness: a two-entry schedule — one undecodable message and
one well-formed job whose engine await raises — is fully served. -/
theorem c3_witness :
    ∃ stFin, worker_loop_run
        [(QueueMsg.invalidJSON "oops", env0),
         (QueueMsg.parsed ⟨some "j1", some "u", some "NEW", some "hi"⟩, envFail)]
        st0 = Except.ok stFin :=
  (c3_worker_isolation
      [(QueueMsg.invalidJSON "oops", env0),
       (QueueMsg.parsed ⟨some "j1", some "u", some "NEW", some "hi"⟩, envFail)]
      st0 (by decide)).1

/-- The history map contains (anywhere, at any image index) an image
carrying a truthy filename. -/
def historyHasNamedImage (h : HistoryItem) : Bool :=
  h.outputs.any fun p =>
    match p.2.images with
    | none => false
    | some imgs => imgs.any fun img => truthy img.filename

/-- A node entry `extract_first_image_from_history` accepts: its `images`
list is non-empty and the FIRST image has a truthy filename. -/
def goodNode (p : String × NodeOutput) : Bool :=
  match p.2.images with
  | some (img :: _) => truthy img.filename
  | _ => false

/-- The reference the source builds from an accepted node: first image's
filename with the defaulted subfolder and type. -/
def imageOfNode (p : String × NodeOutput) : Option (String × String × String) :=
  match p.2.images with
  | some (img :: _) =>
      match img.filename with
      | some f => some (f, img.subfolder.getD "", img.imgType.getD "output")
      | none => none
  | _ => none

/-- A history entry whose single node holds a nameless first image before
a properly named second image. -/
def h0 : HistoryItem :=
  ⟨[("3", ⟨some [⟨none, none, none⟩, ⟨some "a.png", none, none⟩]⟩)]⟩

/-- Engine outcomes delivering `h0` after a clean submit. -/
def envH0 : WorkerEnv := ⟨Except.ok "staged.png", Except.ok "pid-1", Except.ok h0⟩

/-- C9 counterexample: `h0` does contain an image with a filename, yet the
scan — which only ever inspects the first image of each node — extracts
nothing, and the worker ends the job in status error rather than done. -/
theorem c9_counterexample :
    historyHasNamedImage h0 = true ∧
    extract_first_image_from_history h0 = none ∧
    processJobBody envH0 st0 "j1" "u1" "NEW" "p" =
      [WriteOp.setJob "j1" ⟨"processing", none, none⟩,
       WriteOp.setJob "j1" ⟨"error", none,
         some "Không tìm thấy ảnh output trong history ComfyUI"⟩] :=
  ⟨rfl, rfl, rfl⟩

/-- Scan characterization: the extraction is the first node whose images
list starts with a truthy-named image, and only that node's first image is
reported. -/
theorem extractScan_eq_find (l : List (String × NodeOutput)) :
    extractScan l = (l.find? goodNode).bind imageOfNode := by
  induction l with
  | nil => rfl
  | cons p rest ih =>
      obtain ⟨nid, nodeOut⟩ := p
      cases himg : nodeOut.images with
      | none => simp [extractScan, List.find?, goodNode, himg, ih]
      | some imgs =>
          cases imgs with
          | nil => simp [extractScan, List.find?, goodNode, himg, ih]
          | cons img tl =>
              cases hf : img.filename with
              | none =>
                  simp [extractScan, List.find?, goodNode, himg, hf, truthy, ih]
              | some f =>
                  by_cases he : (f == "") = true
                  · have hf0 : f = "" := by simpa using he
                    simp [extractScan, List.find?, goodNode, himg, hf, hf0,
                      truthy, ih]
                  · simp [extractScan, List.find?, goodNode, imageOfNode,
                      himg, hf, he, truthy]

/-- C9 amended: extraction returns the defaulted reference of the first
node whose images list starts with a truthy-named image (later images of a
node are never inspected); when nothing is extracted a job that reached
the await step ends with the fatal no-output message, and a done record is
only ever written carrying an image URL. -/
theorem c9_no_output_amended (env : WorkerEnv) (st : RedisState)
    (jid uid mode prompt : String) (hist : HistoryItem) :
    (extract_first_image_from_history hist
        = (hist.outputs.find? goodNode).bind imageOfNode) ∧
    (env.waitResult = Except.ok hist →
      extract_first_image_from_history hist = none →
      ∀ wf, prepareWorkflow env st uid mode prompt jid = Except.ok wf →
      ∀ pid, env.sendWorkflow = Except.ok pid →
      runAttempt env st jid uid mode prompt
        = Except.error "Không tìm thấy ảnh output trong history ComfyUI") ∧
    (∀ r, WriteOp.setJob jid r ∈ processJobBody env st jid uid mode prompt →
        r.status = "done" → r.image_url.isSome = true) := by
  refine ⟨extractScan_eq_find hist.outputs, ?_, ?_⟩
  · intro hwait hext wf hwf pid hpid
    simp [runAttempt, hwf, hpid, hwait, hext]
  · intro r hmem hdone
    cases hA : runAttempt env st jid uid mode prompt with
    | ok url =>
        simp [processJobBody, hA] at hmem
        rcases hmem with rfl | rfl
        · simp at hdone
        · simp
    | error e =>
        simp [processJobBody, hA] at hmem
        rcases hmem with rfl | rfl
        · simp at hdone
        · simp at hdone

/-- C9 amended witness: on `h0` the job that awaited the engine fails with
the fatal no-output message. -/
theorem c9_witness :
    runAttempt envH0 st0 "j1" "u1" "NEW" "p"
      = Except.error "Không tìm thấy ảnh output trong history ComfyUI" :=
  (c9_no_output_amended envH0 st0 "j1" "u1" "NEW" "p" h0).2.1 rfl rfl
    (Workflow.gen "p" "j1") rfl "pid-1" rfl
